import Mathlib

/-!
Verification of the `early-warning` risk-assessment core
(`src/api/risk_engine.py`) as a shallow embedding in Lean 4.

Python numeric values are embedded as rationals `ℚ`; Python dicts keyed by
strings are embedded as association lists `List (String × ℚ)` with first-key
lookup; `dict.get(k, 0)` becomes `(List.lookup k m).getD 0`.  Operations that
can raise in Python (float division by zero, `max` of an empty collection)
additionally get a checked variant returning `Option`.
-/

/-- The input behavior summary (the `behavior_data` dict consumed by
`RiskEngine`; field set and types follow `UserBehaviorSummary` in
`src/api/models.py`). -/
structure BehaviorSummary where
  total_bets : ℚ
  avg_bet_amount : ℚ
  total_deposits : ℚ
  avg_deposit : ℚ
  loss_rate : ℚ
  median_loss_gap_minutes : ℚ
  late_night_percentage : ℚ
  session_variance : ℚ
  total_loss_amount : ℚ
  betting_days : ℚ
deriving DecidableEq, Repr

/-- The §3 invariants of a valid `BehaviorSummary`: every field in its
declared range, `betting_days ≥ 1`. -/
def ValidBehavior (b : BehaviorSummary) : Prop :=
  0 ≤ b.total_bets ∧ 0 ≤ b.avg_bet_amount ∧ 0 ≤ b.total_deposits ∧
  0 ≤ b.avg_deposit ∧ (0 ≤ b.loss_rate ∧ b.loss_rate ≤ 1) ∧
  0 ≤ b.median_loss_gap_minutes ∧
  (0 ≤ b.late_night_percentage ∧ b.late_night_percentage ≤ 1) ∧
  0 ≤ b.session_variance ∧ 0 ≤ b.total_loss_amount ∧ 1 ≤ b.betting_days

instance (b : BehaviorSummary) : Decidable (ValidBehavior b) := by
  unfold ValidBehavior; infer_instance

/-- Embeds `RiskEngine.feature_names` (risk_engine.py lines 13-20): the fixed
14-name order of the produced feature vector. -/
def feature_names : List String :=
  [ "early_bet_count", "early_avg_bet", "early_std_bet",
    "early_loss_rate", "early_total_loss", "early_unique_days",
    "early_bets_per_day", "early_loss_gaps", "early_immediate_rebet_pct",
    "early_sessions_session_count", "early_sessions_avg_duration",
    "early_sessions_duration_cv", "early_deposits_deposit_count",
    "early_deposits_avg_deposit" ]

/-- The `features` dict literal built inside `RiskEngine.prepare_features`
(risk_engine.py lines 46-61), in source order. -/
def featureMap (b : BehaviorSummary) : List (String × ℚ) :=
  [ ("early_bet_count", b.total_bets),
    ("early_avg_bet", b.avg_bet_amount),
    ("early_std_bet", b.avg_bet_amount * (1/2)),
    ("early_loss_rate", b.loss_rate),
    ("early_total_loss", b.total_loss_amount),
    ("early_unique_days", b.betting_days),
    ("early_bets_per_day", b.total_bets / max b.betting_days 1),
    ("early_loss_gaps", b.median_loss_gap_minutes),
    ("early_immediate_rebet_pct", 1 / (1 + b.median_loss_gap_minutes / 5)),
    ("early_sessions_session_count", b.betting_days * 2),
    ("early_sessions_avg_duration", 45),
    ("early_sessions_duration_cv", b.session_variance),
    ("early_deposits_deposit_count", b.total_deposits),
    ("early_deposits_avg_deposit", b.avg_deposit) ]

/-- The comprehension `[features.get(f, 0) for f in names]` generalised over the name list,
mirroring that `feature_names` is instance data set in `__init__`. -/
def prepareWith (names : List String) (b : BehaviorSummary) : List ℚ :=
  names.map (fun f => ((featureMap b).lookup f).getD 0)

/-- Embeds `RiskEngine.prepare_features` (risk_engine.py lines 44-63): the
returned `np.array([[...]])` row, embedded as the list of its 14 entries. -/
def prepare_features (b : BehaviorSummary) : List ℚ :=
  prepareWith feature_names b

/-- Division as Python performs it: `ZeroDivisionError` (here `none`) when
the divisor is zero. -/
def pydiv (a b : ℚ) : Option ℚ :=
  if b = 0 then none else some (a / b)

/-- Checked variant of the `features` dict literal: every division goes
through `pydiv`, so the result is `none` exactly when some division in the
source dict construction would raise. -/
def featureMapChecked (b : BehaviorSummary) : Option (List (String × ℚ)) := do
  let bets_per_day ← pydiv b.total_bets (max b.betting_days 1)
  let gap_over_5 ← pydiv b.median_loss_gap_minutes 5
  let rebet ← pydiv 1 (1 + gap_over_5)
  pure
    [ ("early_bet_count", b.total_bets),
      ("early_avg_bet", b.avg_bet_amount),
      ("early_std_bet", b.avg_bet_amount * (1/2)),
      ("early_loss_rate", b.loss_rate),
      ("early_total_loss", b.total_loss_amount),
      ("early_unique_days", b.betting_days),
      ("early_bets_per_day", bets_per_day),
      ("early_loss_gaps", b.median_loss_gap_minutes),
      ("early_immediate_rebet_pct", rebet),
      ("early_sessions_session_count", b.betting_days * 2),
      ("early_sessions_avg_duration", 45),
      ("early_sessions_duration_cv", b.session_variance),
      ("early_deposits_deposit_count", b.total_deposits),
      ("early_deposits_avg_deposit", b.avg_deposit) ]

/-- Checked variant of `prepare_features`. -/
def prepare_featuresChecked (b : BehaviorSummary) : Option (List ℚ) := do
  let m ← featureMapChecked b
  pure (feature_names.map (fun f => (m.lookup f).getD 0))

/-- The risk-factor rule block of `RiskEngine.predict_risk`
(risk_engine.py lines 77-87): each `if` appends its string. -/
def riskFactors (b : BehaviorSummary) : List String :=
  (if b.median_loss_gap_minutes < 5 then ["Immediate loss chasing behavior"] else []) ++
  (if b.total_deposits > 20 then ["High deposit frequency"] else []) ++
  (if b.late_night_percentage > (4/10) then ["Excessive late-night gambling"] else []) ++
  (if b.session_variance > 2 then ["Erratic session patterns"] else []) ++
  (if b.loss_rate > (8/10) then ["Very high loss rate"] else [])

/-- The §4.2 rule table as an ordered list of (predicate, factor string)
pairs, used to state that `riskFactors` is exactly the ordered filter of
this table. -/
def riskRuleTable : List ((BehaviorSummary → Bool) × String) :=
  [ (fun b => decide (b.median_loss_gap_minutes < 5), "Immediate loss chasing behavior"),
    (fun b => decide (b.total_deposits > 20), "High deposit frequency"),
    (fun b => decide (b.late_night_percentage > (4/10)), "Excessive late-night gambling"),
    (fun b => decide (b.session_variance > 2), "Erratic session patterns"),
    (fun b => decide (b.loss_rate > (8/10)), "Very high loss rate") ]

/-- Embeds `RiskEngine.predict_risk` (risk_engine.py lines 65-89), parameterised
over `self.models` as an association list from window label to that
window's probability model (`predict_proba(...)[0, 1]` as a function from
the feature row to a probability). -/
def predict_risk (models : List (String × (List ℚ → ℚ)))
    (b : BehaviorSummary) : List (String × ℚ) × List String :=
  let features := prepare_features b
  let risk_scores := models.map (fun wm => (wm.1, wm.2 features))
  (risk_scores, riskFactors b)

/-- Checked variant of `predict_risk`: `none` exactly when feature
extraction would raise. -/
def predict_riskChecked (models : List (String × (List ℚ → ℚ)))
    (b : BehaviorSummary) : Option (List (String × ℚ) × List String) := do
  let features ← prepare_featuresChecked b
  let risk_scores := models.map (fun wm => (wm.1, wm.2 features))
  pure (risk_scores, riskFactors b)

/-- Embeds `max(dict.values())` as Python computes it: raises (here `none`) on an
empty collection, else folds binary `max` over the values. -/
def maxValues : List ℚ → Option ℚ
  | [] => none
  | v :: vs => some (vs.foldl max v)

/-- Embeds `RiskEngine.get_risk_level` (risk_engine.py lines 91-99); `none` models
the `ValueError` that `max` raises on an empty score dict. -/
def get_risk_level (risk_scores : List (String × ℚ)) : Option String :=
  match maxValues (risk_scores.map Prod.snd) with
  | none => none
  | some max_score =>
    if max_score > (7/10) then some "HIGH"
    else if max_score > (4/10) then some "MEDIUM"
    else some "LOW"

/-- The dict returned by each branch of
`RiskEngine.get_intervention_strategy`. -/
structure InterventionStrategy where
  pattern : String
  urgency : String
  description : String
  actions : List String
deriving DecidableEq, Repr

/-- Embeds `RiskEngine.get_intervention_strategy` (risk_engine.py lines 101-151):
the four-branch `if/elif/elif/else` chain, literals included. -/
def get_intervention_strategy (risk_7day risk_30day : ℚ) : InterventionStrategy :=
  if risk_7day > 7/10 ∧ risk_30day > 7/10 then
    { pattern := "IMMEDIATE_CRISIS"
      urgency := "URGENT"
      description := "Both short and long-term risk indicators show immediate danger"
      actions := [ "Immediate deposit limit", "Mandatory cooling period",
                   "Direct phone contact", "Emergency resources" ] }
  else if risk_7day < 4/10 ∧ risk_30day > 6/10 then
    { pattern := "SLOW_BURN"
      urgency := "PREVENTIVE"
      description := "Current behavior seems controlled but shows escalation trajectory"
      actions := [ "Educational emails", "Voluntary limit suggestions",
                   "Progress tracking tools", "Scheduled check-ins" ] }
  else if (4/10 ≤ risk_7day ∧ risk_7day ≤ 7/10) ∨ (4/10 ≤ risk_30day ∧ risk_30day ≤ 7/10) then
    { pattern := "MODERATE_RISK"
      urgency := "MONITOR"
      description := "Showing concerning patterns that need monitoring"
      actions := [ "In-app warnings", "Session reminders", "Self-assessment tools" ] }
  else
    { pattern := "CONTROLLED"
      urgency := "STANDARD"
      description := "Gambling behavior appears well-controlled"
      actions := [ "Continue monitoring", "Positive reinforcement" ] }

/-- Embeds `MockModel.predict_proba` (risk_engine.py lines 33-37): numpy's
global random generator embedded as explicit state `rng : ℕ`:
`np.random.seed(hash(str(X[0])) % 100)` overwrites that state with a value
derived from the input alone, and `np.random.beta(2, 2, 1)[0]` draws the
probability from the freshly seeded state, advancing it.  `hash` and the
seeded beta sampler `betaSample : ℕ → ℚ × ℕ` (sample, successor state) are
parameters: Python's string hash and numpy's sampler are
environment-dependent, so every theorem quantifies over them. -/
def mockPredictProba (hash : String → ℕ) (betaSample : ℕ → ℚ × ℕ)
    (_rng : ℕ) (x : List ℚ) : (ℚ × ℚ) × ℕ :=
  let seeded := hash (toString x) % 100
  let drawn := betaSample seeded
  ((1 - drawn.1, drawn.1), drawn.2)

/-- A concrete instantiation of the hash parameter, for counterexamples. -/
def hashZero : String → ℕ := fun _ => 0

/-- A concrete instantiation of the beta sampler: always samples 1/2 (a
legal Beta(2,2) value) and advances the state by one, as any real
pseudo-random generator advances its state on a draw. -/
def betaHalf : ℕ → ℚ × ℕ := fun s => (1/2, s + 1)

/-- The branch-1 return dict of `get_intervention_strategy` (lines 105-115). -/
def crisisStrategy : InterventionStrategy :=
  { pattern := "IMMEDIATE_CRISIS"
    urgency := "URGENT"
    description := "Both short and long-term risk indicators show immediate danger"
    actions := [ "Immediate deposit limit", "Mandatory cooling period",
                 "Direct phone contact", "Emergency resources" ] }

/-- The branch-2 return dict of `get_intervention_strategy` (lines 118-128). -/
def slowBurnStrategy : InterventionStrategy :=
  { pattern := "SLOW_BURN"
    urgency := "PREVENTIVE"
    description := "Current behavior seems controlled but shows escalation trajectory"
    actions := [ "Educational emails", "Voluntary limit suggestions",
                 "Progress tracking tools", "Scheduled check-ins" ] }

/-- The branch-3 return dict of `get_intervention_strategy` (lines 131-140). -/
def moderateStrategy : InterventionStrategy :=
  { pattern := "MODERATE_RISK"
    urgency := "MONITOR"
    description := "Showing concerning patterns that need monitoring"
    actions := [ "In-app warnings", "Session reminders", "Self-assessment tools" ] }

/-- The branch-4 return dict of `get_intervention_strategy` (lines 143-151). -/
def controlledStrategy : InterventionStrategy :=
  { pattern := "CONTROLLED"
    urgency := "STANDARD"
    description := "Gambling behavior appears well-controlled"
    actions := [ "Continue monitoring", "Positive reinforcement" ] }

/-- C1: `get_intervention_strategy` evaluates its four rules in the fixed
source order with first match winning — rule 1 (`risk_7day > 0.7` and
`risk_30day > 0.7`) yields IMMEDIATE_CRISIS/URGENT, rule 2
(`risk_7day < 0.4` and `risk_30day > 0.6`) yields SLOW_BURN/PREVENTIVE,
rule 3 (`0.4 ≤ risk_7day ≤ 0.7` or `0.4 ≤ risk_30day ≤ 0.7`) yields
MODERATE_RISK/MONITOR, and otherwise it yields CONTROLLED/STANDARD, each
branch carrying its fixed description and ordered action list; in
particular (0.75, 0.75) ↦ IMMEDIATE_CRISIS, (0.2, 0.65) ↦ SLOW_BURN,
(0.5, 0.9) ↦ MODERATE_RISK, (0.1, 0.1) ↦ CONTROLLED. -/
theorem C1_intervention_rule_order :
    (∀ r7 r30 : ℚ,
      (r7 > 7/10 ∧ r30 > 7/10 →
        get_intervention_strategy r7 r30 = crisisStrategy) ∧
      (¬(r7 > 7/10 ∧ r30 > 7/10) → r7 < 4/10 ∧ r30 > 6/10 →
        get_intervention_strategy r7 r30 = slowBurnStrategy) ∧
      (¬(r7 > 7/10 ∧ r30 > 7/10) → ¬(r7 < 4/10 ∧ r30 > 6/10) →
        ((4/10 ≤ r7 ∧ r7 ≤ 7/10) ∨ (4/10 ≤ r30 ∧ r30 ≤ 7/10)) →
        get_intervention_strategy r7 r30 = moderateStrategy) ∧
      (¬(r7 > 7/10 ∧ r30 > 7/10) → ¬(r7 < 4/10 ∧ r30 > 6/10) →
        ¬((4/10 ≤ r7 ∧ r7 ≤ 7/10) ∨ (4/10 ≤ r30 ∧ r30 ≤ 7/10)) →
        get_intervention_strategy r7 r30 = controlledStrategy)) ∧
    get_intervention_strategy (75/100) (75/100) = crisisStrategy ∧
    get_intervention_strategy (2/10) (65/100) = slowBurnStrategy ∧
    get_intervention_strategy (5/10) (9/10) = moderateStrategy ∧
    get_intervention_strategy (1/10) (1/10) = controlledStrategy := by
  refine ⟨fun r7 r30 => ⟨?_, ?_, ?_, ?_⟩, ?_, ?_, ?_, ?_⟩
  · intro h1
    simp only [get_intervention_strategy, if_pos h1]
    rfl
  · intro h1 h2
    simp only [get_intervention_strategy, if_neg h1, if_pos h2]
    rfl
  · intro h1 h2 h3
    simp only [get_intervention_strategy, if_neg h1, if_neg h2, if_pos h3]
    rfl
  · intro h1 h2 h3
    simp only [get_intervention_strategy, if_neg h1, if_neg h2, if_neg h3]
    rfl
  · simp only [get_intervention_strategy]
    norm_num [crisisStrategy]
  · simp only [get_intervention_strategy]
    norm_num [slowBurnStrategy]
  · simp only [get_intervention_strategy]
    norm_num [moderateStrategy]
  · simp only [get_intervention_strategy]
    norm_num [controlledStrategy]

/-- Witness for C1 at the concrete pair (0.8, 0.8). -/
theorem C1_intervention_rule_order_witness :
    get_intervention_strategy (8/10) (8/10) = crisisStrategy :=
  (C1_intervention_rule_order.1 (8/10) (8/10)).1 (by norm_num)

/-- C9: a very high short-term score (`risk_7day > 0.7`) paired with a low
long-term score (`risk_30day < 0.4`) falls through all three earlier rules
and receives CONTROLLED/STANDARD, the least-urgent strategy. -/
theorem C9_high_short_low_long_is_controlled (r7 r30 : ℚ)
    (h7 : r7 > 7/10) (h30 : r30 < 4/10) :
    get_intervention_strategy r7 r30 = controlledStrategy := by
  have h1 : ¬(r7 > 7/10 ∧ r30 > 7/10) := by rintro ⟨-, h⟩; linarith
  have h2 : ¬(r7 < 4/10 ∧ r30 > 6/10) := by rintro ⟨h, -⟩; linarith
  have h3 : ¬((4/10 ≤ r7 ∧ r7 ≤ 7/10) ∨ (4/10 ≤ r30 ∧ r30 ≤ 7/10)) := by
    rintro (⟨-, h⟩ | ⟨h, -⟩) <;> linarith
  simp only [get_intervention_strategy, if_neg h1, if_neg h2, if_neg h3]
  rfl

/-- Witness for C9 at the concrete pair (0.9, 0.1). -/
theorem C9_high_short_low_long_is_controlled_witness :
    get_intervention_strategy (9/10) (1/10) = controlledStrategy :=
  C9_high_short_low_long_is_controlled (9/10) (1/10) (by norm_num) (by norm_num)

/-- C2: on a non-empty score set with maximum `m`, `get_risk_level` returns
HIGH when `m > 0.7`, MEDIUM when `0.4 < m ≤ 0.7` and LOW otherwise; it
never returns CRITICAL, `m = 0.4` exactly gives LOW, and the three concrete
score sets classify as HIGH, MEDIUM and LOW respectively. -/
theorem C2_risk_level_classification :
    (∀ (scores : List (String × ℚ)) (m : ℚ),
      maxValues (scores.map Prod.snd) = some m →
      ((m > 7/10 → get_risk_level scores = some "HIGH") ∧
       (4/10 < m ∧ m ≤ 7/10 → get_risk_level scores = some "MEDIUM") ∧
       (m ≤ 4/10 → get_risk_level scores = some "LOW"))) ∧
    (∀ scores : List (String × ℚ), get_risk_level scores ≠ some "CRITICAL") ∧
    get_risk_level [("7_day", 71/100), ("30_day", 0)] = some "HIGH" ∧
    get_risk_level [("7_day", 41/100), ("30_day", 3/10)] = some "MEDIUM" ∧
    get_risk_level [("7_day", 4/10), ("30_day", 39/100)] = some "LOW" := by
  refine ⟨fun scores m hm => ⟨?_, ?_, ?_⟩, fun scores => ?_, ?_, ?_, ?_⟩
  · intro h
    simp only [get_risk_level, hm, if_pos h]
  · rintro ⟨h1, h2⟩
    have hn : ¬ m > 7/10 := by linarith
    simp only [get_risk_level, hm, if_neg hn, if_pos h1]
  · intro h
    have hn1 : ¬ m > 7/10 := by linarith
    have hn2 : ¬ m > 4/10 := by linarith
    simp only [get_risk_level, hm, if_neg hn1, if_neg hn2]
  · cases h : maxValues (scores.map Prod.snd) with
    | none => simp [get_risk_level, h]
    | some m =>
      simp only [get_risk_level, h]
      split_ifs <;> simp
  · simp only [get_risk_level, List.map, maxValues, List.foldl]
    rw [max_eq_left (by norm_num)]
    norm_num
  · simp only [get_risk_level, List.map, maxValues, List.foldl]
    rw [max_eq_left (by norm_num)]
    norm_num
  · simp only [get_risk_level, List.map, maxValues, List.foldl]
    rw [max_eq_left (by norm_num)]
    norm_num

/-- Witness for C2 at a concrete one-entry score set with maximum 0.9. -/
theorem C2_risk_level_classification_witness :
    maxValues ([(("7_day" : String), (9/10 : ℚ))].map Prod.snd) = some (9/10) ∧
    get_risk_level [("7_day", 9/10)] = some "HIGH" :=
  ⟨rfl,
   (C2_risk_level_classification.1 [("7_day", 9/10)] (9/10) rfl).1 (by norm_num)⟩

/-- C10: `get_risk_level` on the empty score mapping raises (`max` of an
empty collection, modelled as `none`) rather than returning a level, with
no validation guarding it; every non-empty score set yields a level. -/
theorem C10_empty_scores_raise :
    get_risk_level [] = none ∧
    (∀ scores : List (String × ℚ), scores ≠ [] →
      ∃ l, get_risk_level scores = some l) := by
  refine ⟨rfl, fun scores hne => ?_⟩
  match scores with
  | [] => exact absurd rfl hne
  | s :: ss =>
    simp only [get_risk_level, List.map, maxValues]
    split_ifs <;> exact ⟨_, rfl⟩

/-- Witness for C10 at a concrete non-empty score set. -/
theorem C10_empty_scores_raise_witness :
    ∃ l, get_risk_level [(("7_day" : String), (1/2 : ℚ))] = some l :=
  C10_empty_scores_raise.2 [("7_day", 1/2)] (by simp)

/-- The end-to-end §8 behavior (median_loss_gap_minutes 2.3,
total_deposits 23, late_night_percentage 0.45, session_variance 3.2,
loss_rate 0.82, betting_days 14, total_bets 287); the fields the example
leaves unspecified (avg_bet_amount, avg_deposit, total_loss_amount) are
set to 0 — the risk-factor rules never read them. -/
def allFactorsBehavior : BehaviorSummary :=
  { total_bets := 287
    avg_bet_amount := 0
    total_deposits := 23
    avg_deposit := 0
    loss_rate := 82/100
    median_loss_gap_minutes := 23/10
    late_night_percentage := 45/100
    session_variance := 32/10
    total_loss_amount := 0
    betting_days := 14 }

/-- C3: `predict_risk`'s risk-factor block is exactly the ordered filter of
the fixed five-rule table — each factor string appears precisely when its
predicate holds on the raw summary, in rule order — and the concrete §8
behavior triggers all five factors. -/
theorem C3_risk_factor_rules :
    (∀ b : BehaviorSummary,
      riskFactors b = (riskRuleTable.filter (fun r => r.1 b)).map Prod.snd) ∧
    riskFactors allFactorsBehavior =
      [ "Immediate loss chasing behavior", "High deposit frequency",
        "Excessive late-night gambling", "Erratic session patterns",
        "Very high loss rate" ] ∧
    (predict_risk [] allFactorsBehavior).2 =
      [ "Immediate loss chasing behavior", "High deposit frequency",
        "Excessive late-night gambling", "Erratic session patterns",
        "Very high loss rate" ] := by
  have key : ∀ b : BehaviorSummary,
      riskFactors b = (riskRuleTable.filter (fun r => r.1 b)).map Prod.snd := by
    intro b
    by_cases h1 : b.median_loss_gap_minutes < 5 <;>
      by_cases h2 : b.total_deposits > 20 <;>
        by_cases h3 : b.late_night_percentage > (4/10) <;>
          by_cases h4 : b.session_variance > 2 <;>
            by_cases h5 : b.loss_rate > (8/10) <;>
              simp [riskFactors, riskRuleTable, List.filter, h1, h2, h3, h4, h5]
  refine ⟨key, ?_, ?_⟩ <;>
    norm_num [predict_risk, riskFactors, allFactorsBehavior]

/-- C4: `prepare_features` returns exactly the 14 derived values in the
fixed §4.1 slot order and is a pure function — equal inputs yield equal
outputs. -/
theorem C4_feature_vector_shape :
    ∀ b : BehaviorSummary,
      prepare_features b =
        [ b.total_bets, b.avg_bet_amount, b.avg_bet_amount * (1/2),
          b.loss_rate, b.total_loss_amount, b.betting_days,
          b.total_bets / max b.betting_days 1, b.median_loss_gap_minutes,
          1 / (1 + b.median_loss_gap_minutes / 5), b.betting_days * 2, 45,
          b.session_variance, b.total_deposits, b.avg_deposit ] ∧
      (prepare_features b).length = 14 ∧
      (∀ b2 : BehaviorSummary, b = b2 → prepare_features b = prepare_features b2) :=
  fun _ => ⟨rfl, rfl, fun _ h => by rw [h]⟩

/-- Witness for C4 at the all-factors behavior. -/
theorem C4_feature_vector_shape_witness :
    (prepare_features allFactorsBehavior).length = 14 ∧
    prepare_features allFactorsBehavior = prepare_features allFactorsBehavior :=
  ⟨(C4_feature_vector_shape allFactorsBehavior).2.1,
   (C4_feature_vector_shape allFactorsBehavior).2.2 allFactorsBehavior rfl⟩

/-- The `early_immediate_rebet_pct` expression of risk_engine.py line 55 as
a function of the gap. -/
def immediate_rebet_pct (gap : ℚ) : ℚ := 1 / (1 + gap / 5)

/-- C5: the extracted `immediate_rebet_pct` slot — which is exactly
`immediate_rebet_pct` applied to the gap — is strictly decreasing in the
gap over gap ≥ 0, lies in (0, 1], and equals 1 exactly at gap 0. -/
theorem C5_rebet_pct_monotone_bounded :
    (∀ b : BehaviorSummary, ((featureMap b).lookup "early_immediate_rebet_pct") =
      some (immediate_rebet_pct b.median_loss_gap_minutes)) ∧
    (∀ g1 g2 : ℚ, 0 ≤ g1 → g1 < g2 →
      immediate_rebet_pct g2 < immediate_rebet_pct g1) ∧
    (∀ g : ℚ, 0 ≤ g → 0 < immediate_rebet_pct g ∧ immediate_rebet_pct g ≤ 1) ∧
    immediate_rebet_pct 0 = 1 := by
  refine ⟨fun b => rfl, fun g1 g2 hg1 hlt => ?_, fun g hg => ⟨?_, ?_⟩, by
    norm_num [immediate_rebet_pct]⟩
  · have hd1 : (0 : ℚ) < 1 + g1 / 5 := by linarith
    have hlt2 : 1 + g1 / 5 < 1 + g2 / 5 := by linarith
    exact one_div_lt_one_div_of_lt hd1 hlt2
  · have hd : (0 : ℚ) < 1 + g / 5 := by linarith
    exact one_div_pos.mpr hd
  · have hd : (0 : ℚ) < 1 + g / 5 := by linarith
    rw [immediate_rebet_pct, div_le_one hd]
    linarith

/-- Witness for C5 at gaps 0 and 5. -/
theorem C5_rebet_pct_monotone_bounded_witness :
    immediate_rebet_pct 5 < immediate_rebet_pct 0 ∧
    0 < immediate_rebet_pct 5 ∧ immediate_rebet_pct 5 ≤ 1 :=
  ⟨C5_rebet_pct_monotone_bounded.2.1 0 5 le_rfl (by norm_num),
   C5_rebet_pct_monotone_bounded.2.2.1 5 (by norm_num)⟩

/-- C8: `prepare_features` is `prepareWith` at the configured name list,
and for any name list, any slot whose name is absent from the computed
feature mapping comes out as 0 rather than failing. -/
theorem C8_unknown_feature_defaults_to_zero :
    prepare_features = prepareWith feature_names ∧
    (∀ (names : List String) (b : BehaviorSummary) (i : ℕ) (f : String),
      names[i]? = some f →
      (featureMap b).lookup f = none →
      (prepareWith names b)[i]? = some 0) := by
  refine ⟨rfl, fun names b i f hi hf => ?_⟩
  simp [prepareWith, List.getElem?_map, hi, hf]

/-- Witness for C8: a name list holding one name foreign to the feature
table produces the vector `[0]`. -/
theorem C8_unknown_feature_defaults_to_zero_witness :
    (prepareWith ["not_a_feature"] allFactorsBehavior)[0]? = some 0 :=
  C8_unknown_feature_defaults_to_zero.2 ["not_a_feature"] allFactorsBehavior 0
    "not_a_feature" rfl rfl

/-- C6: on any §3-valid behavior, feature extraction and `predict_risk`
never raise — every checked division succeeds, the checked variants agree
with the plain ones — and a risk score is produced for each configured
window, in the configured order. -/
theorem C6_predict_risk_total (models : List (String × (List ℚ → ℚ)))
    (b : BehaviorSummary) (hb : ValidBehavior b) :
    prepare_featuresChecked b = some (prepare_features b) ∧
    predict_riskChecked models b = some (predict_risk models b) ∧
    (predict_risk models b).1.map Prod.fst = models.map Prod.fst := by
  obtain ⟨-, -, -, -, -, hgap, -, -, -, hdays⟩ := hb
  have h1 : max b.betting_days 1 ≠ 0 := by
    have := le_max_right b.betting_days 1
    intro h
    rw [h] at this
    norm_num at this
  have h2 : (5 : ℚ) ≠ 0 := by norm_num
  have h3 : (1 : ℚ) + b.median_loss_gap_minutes / 5 ≠ 0 := by
    have : 0 ≤ b.median_loss_gap_minutes / 5 := by positivity
    intro h
    linarith
  have hmap : featureMapChecked b = some (featureMap b) := by
    simp [featureMapChecked, pydiv, h1, h2, h3, featureMap]
  refine ⟨?_, ?_, ?_⟩
  · simp [prepare_featuresChecked, hmap, prepare_features, prepareWith]
  · simp [predict_riskChecked, prepare_featuresChecked, hmap, predict_risk,
      prepare_features, prepareWith]
  · simp [predict_risk]

/-- A minimal §3-valid behavior, for witnesses. -/
def minimalBehavior : BehaviorSummary :=
  { total_bets := 0, avg_bet_amount := 0, total_deposits := 0,
    avg_deposit := 0, loss_rate := 0, median_loss_gap_minutes := 0,
    late_night_percentage := 0, session_variance := 0,
    total_loss_amount := 0, betting_days := 1 }

/-- Witness for C6 at the minimal valid behavior and a one-window model
table. -/
theorem C6_predict_risk_total_witness :
    ValidBehavior minimalBehavior ∧
    predict_riskChecked [("7_day", fun _ => 1/2)] minimalBehavior =
      some (predict_risk [("7_day", fun _ => 1/2)] minimalBehavior) :=
  ⟨by norm_num [ValidBehavior, minimalBehavior],
   (C6_predict_risk_total [("7_day", fun _ => 1/2)] minimalBehavior
     (by norm_num [ValidBehavior, minimalBehavior])).2.1⟩

/-- C7 (amended form): for every hash function and every stateful beta
sampler whose samples lie in [0, 1], the mock model's returned probability
pair is the same whatever the incoming global RNG state (equal inputs give
equal probabilities), the probability lies in [0, 1] — but the outgoing
global RNG state is likewise independent of the incoming one: the call
overwrites the shared RNG state with a value derived from the input, an
effect observable by other users of that state. -/
theorem C7_mock_model_deterministic_but_stateful :
    ∀ (hash : String → ℕ) (betaSample : ℕ → ℚ × ℕ),
      (∀ s, 0 ≤ (betaSample s).1 ∧ (betaSample s).1 ≤ 1) →
      ∀ (rng1 rng2 : ℕ) (x : List ℚ),
        (mockPredictProba hash betaSample rng1 x).1 =
          (mockPredictProba hash betaSample rng2 x).1 ∧
        (0 ≤ (mockPredictProba hash betaSample rng1 x).1.2 ∧
          (mockPredictProba hash betaSample rng1 x).1.2 ≤ 1) ∧
        (mockPredictProba hash betaSample rng1 x).2 =
          (mockPredictProba hash betaSample rng2 x).2 := by
  intro hash betaSample hrange rng1 rng2 x
  exact ⟨rfl, hrange _, rfl⟩

/-- Counterexample to C7 as stated: with the all-zero hash and the
state-advancing half sampler, calling the mock model on the empty feature
row rewrites a global RNG state of 5 to 1 — an effect observable by other
callers, so the call is not free of observable effects. -/
theorem C7_mock_model_side_effect_counterexample :
    (mockPredictProba hashZero betaHalf 5 []).2 ≠ 5 := by
  simp [mockPredictProba, hashZero, betaHalf]

/-- Witness for C7 (amended) at the concrete hash/sampler pair, incoming
states 0 and 7, and the empty feature row. -/
theorem C7_mock_model_deterministic_but_stateful_witness :
    (mockPredictProba hashZero betaHalf 0 []).1 =
      (mockPredictProba hashZero betaHalf 7 []).1 ∧
    0 ≤ (mockPredictProba hashZero betaHalf 0 []).1.2 ∧
    (mockPredictProba hashZero betaHalf 0 []).1.2 ≤ 1 :=
  ⟨(C7_mock_model_deterministic_but_stateful hashZero betaHalf
      (fun s => by norm_num [betaHalf]) 0 7 []).1,
   (C7_mock_model_deterministic_but_stateful hashZero betaHalf
      (fun s => by norm_num [betaHalf]) 0 7 []).2.1⟩
